import Mathlib

/-!
Device operator: reconciler and enrollment gateway

A shallow embedding of `controllers/deviceregistration_controller.go`,
`api/v1alpha1/deviceregistration_types.go` and `gateway/main.go`.

The Kubernetes API server is an explicit `Cluster` value; what one invocation
cannot control (whether the status write is accepted, the generated UUID, the
clock) is an explicit `Env` value.  Logging is omitted: it has no effect on the
store or on the returned values.
-/

namespace DeviceOperator

/-! ## api/v1alpha1/deviceregistration_types.go -/

/-- Entry of `status.conditions` (`metav1.Condition`); the controller never reads or writes it. -/
structure Condition where
  Type_ : String
  Status : String
  Reason : String
  Message : String
deriving DecidableEq, Repr

/-- Go struct `DeviceRegistrationSpec`. -/
structure DeviceRegistrationSpec where
  PublicKey : String
  Deactivate : Bool
deriving DecidableEq, Repr

/-- Go struct `DeviceRegistrationStatus`; an omitted string field is the empty string. -/
structure DeviceRegistrationStatus where
  Phase : String
  Message : String
  RegistrationTimestamp : String
  DeviceUUID : String
  Conditions : List Condition
deriving DecidableEq, Repr

/-- Go struct `DeviceRegistration`, with the two `ObjectMeta` fields the code uses. -/
structure DeviceRegistration where
  Name : String
  Namespace : String
  Spec : DeviceRegistrationSpec
  Status : DeviceRegistrationStatus
deriving DecidableEq, Repr

/-! ## controllers/deviceregistration_controller.go -/

def PhasePending : String := "Pending"
def PhaseApproved : String := "Approved"
def PhaseRejected : String := "Rejected"
def PhaseDeactivated : String := "Deactivated"
def PairingConfigMapName : String := "device-pairing-config"

/-- Go constant `time.Second`, a `time.Duration` counted in nanoseconds. -/
def Second : Nat := 1000000000

/-- Answer of a `client.Get`: the object, a not-found error, or any other error. -/
inductive GetResult (α : Type) where
  | ok (a : α)
  | notFound
  | failed (err : String)
deriving Repr

/-- The part of `corev1.ConfigMap` the controller reads: `Data`, a string-to-string map. -/
structure ConfigMap where
  Data : List (String × String)
deriving Repr

/-- What the API server holds: the answer to a `Get` of the reconciled
`DeviceRegistration`, and the answer to a `Get` of a ConfigMap by namespace and name. -/
structure Cluster where
  registration : GetResult DeviceRegistration
  configMaps : String → String → GetResult ConfigMap

/-- What one `Reconcile` invocation takes from outside: the error of `Status().Update`
(if it fails), the string of `uuid.New()`, and `time.Now().Format(time.RFC3339)`. -/
structure Env where
  updateErr : Option String
  newUUID : String
  now : String
deriving Repr

/-- Go struct `ctrl.Result`. -/
structure Result where
  Requeue : Bool
  RequeueAfter : Nat
deriving DecidableEq, Repr

/-- The zero value `ctrl.Result{}`. -/
def Result.empty : Result := ⟨false, 0⟩

/-- What an invocation returns and does: the `(ctrl.Result, error)` pair, the objects
handed to `Status().Update` (in call order, accepted or not), and the cluster afterwards. -/
structure Outcome where
  result : Result
  err : Option String
  updates : List DeviceRegistration
  cluster : Cluster

/-- The call `r.Status().Update(ctx, dr)`: either refused with an error, leaving the
store as it was, or accepted, replacing the stored object's status with `dr.Status`. -/
def statusUpdate (env : Env) (c : Cluster) (dr : DeviceRegistration) : Option String × Cluster :=
  match env.updateErr with
  | some e => (some e, c)
  | none =>
    (none, { c with registration :=
      match c.registration with
      | .ok o => .ok { o with Status := dr.Status }
      | r => r })

/-- Go `isPairingModeEnabled`: the `(bool, error)` pair. -/
def isPairingModeEnabled (c : Cluster) (ns : String) : Bool × Option String :=
  match c.configMaps ns PairingConfigMapName with
  | .notFound => (false, none)
  | .failed e => (false, some ("impossibile ottenere il ConfigMap di pairing: " ++ e))
  | .ok pairingConfig =>
    match pairingConfig.Data.lookup "enabled" with
    | none => (false, none)
    | some enabled => (decide (enabled = "true"), none)

/-- Go `handleInitialRegistration`. -/
def handleInitialRegistration (env : Env) (c : Cluster) (dr : DeviceRegistration) : Outcome :=
  match isPairingModeEnabled c dr.Namespace with
  | (_, some err) => ⟨⟨false, 15 * Second⟩, some err, [], c⟩
  | (false, none) =>
    let dr1 := { dr with Status := { dr.Status with
      Phase := PhaseRejected,
      Message := "Pairing mode is not enabled. The request is rejected." } }
    match statusUpdate env c dr1 with
    | (some err, c1) => ⟨Result.empty, some err, [dr1], c1⟩
    | (none, c1) => ⟨Result.empty, none, [dr1], c1⟩
  | (true, none) =>
    let dr1 := { dr with Status := { dr.Status with
      DeviceUUID := env.newUUID,
      Phase := PhaseApproved,
      Message := "Device registered successfully.",
      RegistrationTimestamp := env.now } }
    match statusUpdate env c dr1 with
    | (some err, c1) => ⟨Result.empty, some err, [dr1], c1⟩
    | (none, c1) => ⟨Result.empty, none, [dr1], c1⟩

/-- Go `deactivateDevice`. -/
def deactivateDevice (env : Env) (c : Cluster) (dr : DeviceRegistration) : Outcome :=
  let dr1 := { dr with Status := { dr.Status with
    Phase := PhaseDeactivated,
    Message := "Device has been deactivated by an administrator." } }
  match statusUpdate env c dr1 with
  | (some err, c1) => ⟨Result.empty, some err, [dr1], c1⟩
  | (none, c1) => ⟨Result.empty, none, [dr1], c1⟩

/-- Go `reactivateDevice`. -/
def reactivateDevice (env : Env) (c : Cluster) (dr : DeviceRegistration) : Outcome :=
  let dr1 := { dr with Status := { dr.Status with
    Phase := PhaseApproved,
    Message := "Device has been reactivated." } }
  match statusUpdate env c dr1 with
  | (some err, c1) => ⟨Result.empty, some err, [dr1], c1⟩
  | (none, c1) => ⟨Result.empty, none, [dr1], c1⟩

/-- Go `Reconcile`: fetch the object (`client.IgnoreNotFound` on failure), then the four
branches in source order. -/
def Reconcile (env : Env) (c : Cluster) : Outcome :=
  match c.registration with
  | .notFound => ⟨Result.empty, none, [], c⟩
  | .failed e => ⟨Result.empty, some e, [], c⟩
  | .ok dr =>
    if dr.Spec.Deactivate = true ∧ dr.Status.Phase = PhaseApproved then
      deactivateDevice env c dr
    else if dr.Spec.Deactivate = false ∧ dr.Status.Phase = PhaseDeactivated then
      reactivateDevice env c dr
    else if dr.Status.Phase = PhaseApproved ∨ dr.Status.Phase = PhaseRejected then
      ⟨Result.empty, none, [], c⟩
    else
      handleInitialRegistration env c dr

/-- An administrator's edit of `spec.deactivate` on the stored object. -/
def setDeactivate (b : Bool) (c : Cluster) : Cluster :=
  { c with registration :=
    match c.registration with
    | .ok o => .ok { o with Spec := { o.Spec with Deactivate := b } }
    | r => r }

/-- The status the store holds for the reconciled object, when it holds the object. -/
def Cluster.status (c : Cluster) : Option DeviceRegistrationStatus :=
  match c.registration with
  | .ok o => some o.Status
  | _ => none

/-- A cluster holding the object `dr` and answering every ConfigMap `Get`
in any namespace with `flag`. -/
def Cluster.mk1 (dr : DeviceRegistration) (flag : GetResult ConfigMap) : Cluster :=
  ⟨.ok dr, fun _ _ => flag⟩

/-- The object the gateway creates: only `spec.publicKey` is set. -/
def freshRegistration (name ns publicKey : String) : DeviceRegistration :=
  ⟨name, ns, ⟨publicKey, false⟩, ⟨"", "", "", "", []⟩⟩

/-- A flag source holding `enabled = v`. -/
def flagValue (v : String) : GetResult ConfigMap := .ok ⟨[("enabled", v)]⟩

/-! ## gateway/main.go -/

/-- Go struct `EnrollmentRequest`; a JSON body without the key decodes to the empty string. -/
structure EnrollmentRequest where
  PublicKey : String
deriving DecidableEq, Repr

/-- Go struct `EnrollmentResponse`. -/
structure EnrollmentResponse where
  DeviceUUID : String
  Message : String
deriving DecidableEq, Repr

/-- A value held in an `unstructured.Unstructured` object (`interface{}` after JSON decoding). -/
inductive Value where
  | null
  | bool (b : Bool)
  | number (n : Int)
  | str (s : String)
  | list (xs : List Value)
  | map (fields : List (String × Value))

/-- The field `Object` of `unstructured.Unstructured`: a `map[string]interface{}`. -/
abbrev Object := List (String × Value)

/-- Go type assertion `m[key].(string)` in its two-value form: the string and `ok`. -/
def stringAt (m : Object) (key : String) : String × Bool :=
  match m.lookup key with
  | some (.str s) => (s, true)
  | _ => ("", false)

/-- The call `unstructured.NestedMap(obj, field)` with one field: `(map, found, err)`.
An absent field is not found; a field that is not a map is an accessor error. -/
def NestedMap (obj : Object) (field : String) : Object × Bool × Option String :=
  match obj.lookup field with
  | none => ([], false, none)
  | some (.map m) => (m, true, none)
  | some _ => ([], false, some (field ++ " accessor error"))

/-- The condition function that `waitForApproval` hands to the poller. `res` is the
answer of the store's `Get`; the `String` is the captured variable `deviceUUID`. The
result is the `(bool, error)` pair and the variable afterwards. -/
def waitForApproval.condition (res : Except String Object) (deviceUUID : String) :
    (Bool × Option String) × String :=
  match res with
  | .error err => ((false, some err), deviceUUID)
  | .ok obj =>
    match NestedMap obj "status" with
    | (status, found, err) =>
      if err ≠ none ∨ found = false then ((false, none), deviceUUID)
      else
        let phase := (stringAt status "phase").1
        if phase = "Approved" then
          match stringAt status "deviceUUID" with
          | (uuid, ok) =>
            if ok = true ∧ uuid ≠ "" then ((true, none), uuid)
            else ((false, none), deviceUUID)
        else if phase = "Rejected" then
          let message := (stringAt status "message").1
          ((false, some ("registrazione rifiutata: " ++ message)), deviceUUID)
        else ((false, none), deviceUUID)

/-- The loop of `wait.PollImmediateUntilWithContext`: an error of the condition ends the
poll with that error, `true` ends it with success, otherwise the next attempt follows.
Each element of the list is what one attempt made before the context was done gets
from the store; when the list is used up the context is done and the poll ends
with `ctxErr`. -/
def pollLoop {α σ : Type} (ctxErr : String) (cond : α → σ → (Bool × Option String) × σ) :
    List α → σ → Option String × σ
  | [], s => (some ctxErr, s)
  | a :: rest, s =>
    match cond a s with
    | ((_, some err), s1) => (some err, s1)
    | ((true, none), s1) => (none, s1)
    | ((false, none), s1) => pollLoop ctxErr cond rest s1

/-- The call `wait.PollImmediateUntilWithContext`: the first attempt is made at once. -/
def PollImmediateUntilWithContext {α σ : Type} (ctxErr : String)
    (cond : α → σ → (Bool × Option String) × σ) (first : α) (rest : List α) (s : σ) :
    Option String × σ :=
  pollLoop ctxErr cond (first :: rest) s

/-- What one request takes from outside: the string of `uuid.New()`, the error of the
store's `Create` (if it fails), the store's answers to the poll attempts, and the
error with which the poller ends when its context (deadline of two minutes, or the
caller's cancellation) is done. -/
structure GatewayEnv where
  newUUID : String
  createErr : Option String
  firstGet : Except String Object
  laterGets : List (Except String Object)
  ctxErr : String

/-- Go struct `gatewayHandler`; the client is the store the environment answers for. -/
structure gatewayHandler where
  namespace_ : String

/-- Go `waitForApproval`: the `(string, error)` pair. -/
def waitForApproval (env : GatewayEnv) : String × Option String :=
  match PollImmediateUntilWithContext env.ctxErr waitForApproval.condition
      env.firstGet env.laterGets "" with
  | (some err, _) => ("", some err)
  | (none, deviceUUID) => (deviceUUID, none)

/-- The object handed to the store's `Create`. -/
structure CreateCall where
  namespace_ : String
  name : String
  publicKey : String
deriving DecidableEq, Repr

/-- Go `createDeviceRegistrationResource`: the `(string, error)` pair and the `Create`
call made. The name is `dev-reg-` followed by the first 8 characters of the UUID string. -/
def createDeviceRegistrationResource (h : gatewayHandler) (env : GatewayEnv)
    (publicKey : String) : (String × Option String) × List CreateCall :=
  let resourceName := "dev-reg-" ++ env.newUUID.take 8
  let call : CreateCall := ⟨h.namespace_, resourceName, publicKey⟩
  match env.createErr with
  | some err => (("", some err), [call])
  | none => ((resourceName, none), [call])

def MethodPost : String := "POST"
def StatusOK : Nat := 200
def StatusBadRequest : Nat := 400
def StatusForbidden : Nat := 403
def StatusMethodNotAllowed : Nat := 405
def StatusInternalServerError : Nat := 500

/-- The request as the handler reads it: the method, and the result of decoding the
body into `EnrollmentRequest` (`none` when decoding fails). -/
structure Request where
  Method : String
  Body : Option EnrollmentRequest
deriving DecidableEq, Repr

/-- A response body: plain text, or the JSON encoding of an `EnrollmentResponse`. -/
inductive Body where
  | text (s : String)
  | json (r : EnrollmentResponse)
deriving DecidableEq, Repr

/-- The response written to the `http.ResponseWriter`. -/
structure Response where
  StatusCode : Nat
  ContentType : String
  body : Body
deriving DecidableEq, Repr

/-- Go `http.Error`: plain-text content type, the status code, the text and a newline. -/
def httpError (error : String) (code : Nat) : Response :=
  ⟨code, "text/plain; charset=utf-8", .text (error ++ "\n")⟩

/-- What serving one request does: the response, and the `Create` calls made on the store. -/
structure Served where
  response : Response
  creates : List CreateCall
deriving DecidableEq, Repr

/-- Go `ServeHTTP`. -/
def ServeHTTP (h : gatewayHandler) (env : GatewayEnv) (r : Request) : Served :=
  if r.Method ≠ MethodPost then
    ⟨httpError "Metodo non consentito. Usare POST." StatusMethodNotAllowed, []⟩
  else
    match r.Body with
    | none => ⟨httpError "Corpo della richiesta JSON non valido." StatusBadRequest, []⟩
    | some req =>
      if req.PublicKey = "" then
        ⟨httpError "Il campo \x27publicKey\x27 è obbligatorio." StatusBadRequest, []⟩
      else
        match createDeviceRegistrationResource h env req.PublicKey with
        | ((_, some _), calls) =>
          ⟨httpError "Errore interno del server durante la creazione della richiesta."
            StatusInternalServerError, calls⟩
        | ((_, none), calls) =>
          match waitForApproval env with
          | (_, some err) =>
            ⟨httpError ("Registrazione fallita: " ++ err) StatusForbidden, calls⟩
          | (uuid, none) =>
            ⟨⟨StatusOK, "application/json",
              .json ⟨uuid, "Dispositivo registrato con successo."⟩⟩, calls⟩

/-- The `status` map of a fetched object, when the object has one. -/
def statusOf (obj : Object) : Option Object :=
  match obj.lookup "status" with
  | some (.map m) => some m
  | _ => none

/-- A string-valued field of a map, when the map has the key with a string value. -/
def stringField (m : Object) (key : String) : Option String :=
  match m.lookup key with
  | some (.str s) => some s
  | _ => none

/-- A fetched object whose status is the given phase, message and UUID. -/
def objectWith (phase message deviceUUID : String) : Object :=
  [("status", .map [("phase", .str phase), ("message", .str message),
    ("deviceUUID", .str deviceUUID)])]

/-- Branch 4 with the flag source answering "closed": the status handed to the store. -/
def rejectedStatus (st : DeviceRegistrationStatus) : DeviceRegistrationStatus :=
  { st with Phase := PhaseRejected,
            Message := "Pairing mode is not enabled. The request is rejected." }

/-- Branch 4 with the flag source answering "open": the status handed to the store. -/
def approvedStatus (env : Env) (st : DeviceRegistrationStatus) : DeviceRegistrationStatus :=
  { st with DeviceUUID := env.newUUID, Phase := PhaseApproved,
            Message := "Device registered successfully.",
            RegistrationTimestamp := env.now }

/-- Branch 1: the status handed to the store. -/
def deactivatedStatus (st : DeviceRegistrationStatus) : DeviceRegistrationStatus :=
  { st with Phase := PhaseDeactivated,
            Message := "Device has been deactivated by an administrator." }

/-- Branch 2: the status handed to the store. -/
def reactivatedStatus (st : DeviceRegistrationStatus) : DeviceRegistrationStatus :=
  { st with Phase := PhaseApproved, Message := "Device has been reactivated." }

/-! ## A concrete history of one object -/

/-- The object as the gateway created it, with enrollment open. -/
def history0 : Cluster :=
  Cluster.mk1 (freshRegistration "dev-reg-0a1b2c3d" "default" "PEM-KEY-A") (flagValue "true")

/-- After the first reconciliation. -/
def history1 : Cluster := (Reconcile ⟨none, "U1", "T1"⟩ history0).cluster

/-- After the administrator set `deactivate` and the object was reconciled. -/
def history2 : Cluster := (Reconcile ⟨none, "U2", "T2"⟩ (setDeactivate true history1)).cluster

/-- After the same object was reconciled once more, nothing else having changed. -/
def history3 : Cluster := (Reconcile ⟨none, "U3", "T3"⟩ history2).cluster

/-- A request environment: the store first answers with an object that has no status
yet, and then with the given answers. -/
def pollEnv (createErr : Option String) (later : List (Except String Object)) : GatewayEnv :=
  ⟨"0a1b2c3d-1111-2222-3333-444455556666", createErr, .ok [], later,
    "timed out waiting for the condition"⟩

/-! ## Shared lemmas -/

theorem phase_consts :
    PhaseApproved ≠ PhaseRejected ∧ PhaseApproved ≠ PhaseDeactivated ∧
    PhaseApproved ≠ PhasePending ∧ PhaseApproved ≠ "" ∧
    PhaseRejected ≠ PhaseDeactivated ∧ PhaseRejected ≠ PhasePending ∧ PhaseRejected ≠ "" ∧
    PhaseDeactivated ≠ PhasePending ∧ PhaseDeactivated ≠ "" ∧ PhasePending ≠ "" := by
  decide

/-- An accepted status write stores the submitted status on the fetched object. -/
theorem statusUpdate_accepted (env : Env) (c : Cluster) (dr dr1 : DeviceRegistration)
    (hget : c.registration = .ok dr) (hup : env.updateErr = none) :
    statusUpdate env c dr1 =
      (none, { c with registration := .ok { dr with Status := dr1.Status } }) := by
  simp [statusUpdate, hup, hget]

/-- A refused status write leaves the store as it was and hands back the error. -/
theorem statusUpdate_refused (env : Env) (c : Cluster) (dr1 : DeviceRegistration) (e : String)
    (hup : env.updateErr = some e) :
    statusUpdate env c dr1 = (some e, c) := by
  simp [statusUpdate, hup]

/-- Branch 4 is reached exactly when the phase is none of the three named ones,
or is `Deactivated` while `deactivate` is still set. -/
theorem Reconcile_initial (env : Env) (c : Cluster) (dr : DeviceRegistration)
    (hget : c.registration = .ok dr)
    (h1 : dr.Status.Phase ≠ PhaseApproved) (h2 : dr.Status.Phase ≠ PhaseRejected)
    (h3 : dr.Status.Phase = PhaseDeactivated → dr.Spec.Deactivate = true) :
    Reconcile env c = handleInitialRegistration env c dr := by
  unfold Reconcile
  rw [hget]
  simp only [h1, h2, and_false, or_self, if_false]
  split_ifs with h
  · have := h3 h.2
    simp [h.1] at this
  · rfl

/-- Branch 3: `Rejected`, or `Approved` without a deactivation request, is left alone. -/
theorem Reconcile_stable (env : Env) (c : Cluster) (dr : DeviceRegistration)
    (hget : c.registration = .ok dr)
    (h : dr.Status.Phase = PhaseRejected ∨
      (dr.Status.Phase = PhaseApproved ∧ dr.Spec.Deactivate = false)) :
    Reconcile env c = ⟨Result.empty, none, [], c⟩ := by
  unfold Reconcile
  rw [hget]
  rcases h with h | ⟨h, hd⟩
  · simp [h, phase_consts.1.symm, phase_consts.2.2.2.2.1]
  · simp [h, hd, phase_consts.2.1]

theorem handleInitialRegistration_closed (env : Env) (c : Cluster) (dr : DeviceRegistration)
    (hflag : isPairingModeEnabled c dr.Namespace = (false, none)) :
    handleInitialRegistration env c dr =
      ⟨Result.empty, (statusUpdate env c { dr with Status := rejectedStatus dr.Status }).1,
        [{ dr with Status := rejectedStatus dr.Status }],
        (statusUpdate env c { dr with Status := rejectedStatus dr.Status }).2⟩ := by
  unfold handleInitialRegistration
  rw [hflag]
  simp only [rejectedStatus]
  split <;> simp_all

theorem handleInitialRegistration_open (env : Env) (c : Cluster) (dr : DeviceRegistration)
    (hflag : isPairingModeEnabled c dr.Namespace = (true, none)) :
    handleInitialRegistration env c dr =
      ⟨Result.empty, (statusUpdate env c { dr with Status := approvedStatus env dr.Status }).1,
        [{ dr with Status := approvedStatus env dr.Status }],
        (statusUpdate env c { dr with Status := approvedStatus env dr.Status }).2⟩ := by
  unfold handleInitialRegistration
  rw [hflag]
  simp only [approvedStatus]
  split <;> simp_all

theorem handleInitialRegistration_unreadable (env : Env) (c : Cluster) (dr : DeviceRegistration)
    (b : Bool) (e : String) (hflag : isPairingModeEnabled c dr.Namespace = (b, some e)) :
    handleInitialRegistration env c dr = ⟨⟨false, 15 * Second⟩, some e, [], c⟩ := by
  unfold handleInitialRegistration
  rw [hflag]
  cases b <;> rfl

/-- The flag source answers "closed" without error when it is absent, has no key
`enabled`, or holds another value than `true`. -/
theorem isPairingModeEnabled_closed (c : Cluster) (ns : String)
    (h : c.configMaps ns PairingConfigMapName = .notFound ∨
      (∃ cm, c.configMaps ns PairingConfigMapName = .ok cm ∧ cm.Data.lookup "enabled" = none) ∨
      (∃ cm v, c.configMaps ns PairingConfigMapName = .ok cm ∧
        cm.Data.lookup "enabled" = some v ∧ v ≠ "true")) :
    isPairingModeEnabled c ns = (false, none) := by
  unfold isPairingModeEnabled
  rcases h with h | ⟨cm, h, hk⟩ | ⟨cm, v, h, hk, hv⟩
  · rw [h]
  · rw [h]; simp [hk]
  · rw [h]; simp [hk, hv]

theorem isPairingModeEnabled_open (c : Cluster) (ns : String) (cm : ConfigMap)
    (h : c.configMaps ns PairingConfigMapName = .ok cm)
    (hk : cm.Data.lookup "enabled" = some "true") :
    isPairingModeEnabled c ns = (true, none) := by
  unfold isPairingModeEnabled
  rw [h]; simp [hk]

theorem isPairingModeEnabled_failed (c : Cluster) (ns e : String)
    (h : c.configMaps ns PairingConfigMapName = .failed e) :
    isPairingModeEnabled c ns =
      (false, some ("impossibile ottenere il ConfigMap di pairing: " ++ e)) := by
  unfold isPairingModeEnabled
  rw [h]

/-- The answer of the flag source is one of three: closed, open, or an error. -/
theorem isPairingModeEnabled_cases (c : Cluster) (ns : String) :
    isPairingModeEnabled c ns = (false, none) ∨ isPairingModeEnabled c ns = (true, none) ∨
      ∃ e, isPairingModeEnabled c ns = (false, some e) := by
  unfold isPairingModeEnabled
  split
  · exact Or.inl rfl
  · exact Or.inr (Or.inr ⟨_, rfl⟩)
  · split
    · exact Or.inl rfl
    · rename_i enabled _
      by_cases h : enabled = "true"
      · exact Or.inr (Or.inl (by simp [h]))
      · exact Or.inl (by simp [h])

theorem empty_or_pending_initial (dr : DeviceRegistration)
    (h : dr.Status.Phase = "" ∨ dr.Status.Phase = PhasePending) :
    dr.Status.Phase ≠ PhaseApproved ∧ dr.Status.Phase ≠ PhaseRejected ∧
      dr.Status.Phase ≠ PhaseDeactivated := by
  have hc := phase_consts
  rcases h with h | h <;> rw [h] <;>
    exact ⟨fun x => by simp_all, fun x => by simp_all, fun x => by simp_all⟩

theorem deactivateDevice_eq (env : Env) (c : Cluster) (dr : DeviceRegistration) :
    deactivateDevice env c dr =
      ⟨Result.empty, (statusUpdate env c { dr with Status := deactivatedStatus dr.Status }).1,
        [{ dr with Status := deactivatedStatus dr.Status }],
        (statusUpdate env c { dr with Status := deactivatedStatus dr.Status }).2⟩ := by
  unfold deactivateDevice
  simp only [deactivatedStatus]
  split <;> simp_all

theorem reactivateDevice_eq (env : Env) (c : Cluster) (dr : DeviceRegistration) :
    reactivateDevice env c dr =
      ⟨Result.empty, (statusUpdate env c { dr with Status := reactivatedStatus dr.Status }).1,
        [{ dr with Status := reactivatedStatus dr.Status }],
        (statusUpdate env c { dr with Status := reactivatedStatus dr.Status }).2⟩ := by
  unfold reactivateDevice
  simp only [reactivatedStatus]
  split <;> simp_all

/-- Branch 1 is taken exactly for an `Approved` object with `deactivate` set. -/
theorem Reconcile_deactivate (env : Env) (c : Cluster) (dr : DeviceRegistration)
    (hget : c.registration = .ok dr) (hd : dr.Spec.Deactivate = true)
    (hp : dr.Status.Phase = PhaseApproved) :
    Reconcile env c = deactivateDevice env c dr := by
  unfold Reconcile
  rw [hget]
  simp [hd, hp]

/-- Branch 2 is taken exactly for a `Deactivated` object with `deactivate` unset. -/
theorem Reconcile_reactivate (env : Env) (c : Cluster) (dr : DeviceRegistration)
    (hget : c.registration = .ok dr) (hd : dr.Spec.Deactivate = false)
    (hp : dr.Status.Phase = PhaseDeactivated) :
    Reconcile env c = reactivateDevice env c dr := by
  unfold Reconcile
  rw [hget]
  simp [hd, hp]

/-- The two possible results of a status write, as a pair of cases. -/
theorem statusUpdate_cases (env : Env) (c : Cluster) (dr dr1 : DeviceRegistration)
    (hget : c.registration = .ok dr) :
    (env.updateErr = none ∧ statusUpdate env c dr1 =
        (none, { c with registration := .ok { dr with Status := dr1.Status } })) ∨
      (∃ e, env.updateErr = some e ∧ statusUpdate env c dr1 = (some e, c)) := by
  cases h : env.updateErr with
  | none => exact Or.inl ⟨rfl, statusUpdate_accepted env c dr dr1 hget h⟩
  | some e => exact Or.inr ⟨e, rfl, statusUpdate_refused env c dr1 e h⟩

/-- After an error-free reconciliation of an object that has no pending deactivation
request to serve later, the stored object is `Rejected`, or `Approved` with
`deactivate` unset. -/
theorem Reconcile_settles (env : Env) (c : Cluster) (dr : DeviceRegistration)
    (hget : c.registration = .ok dr)
    (hcase : dr.Spec.Deactivate = false ∨ dr.Status.Phase = PhaseRejected ∨
      (dr.Status.Phase ≠ PhaseApproved ∧ dr.Status.Phase ≠ PhaseDeactivated ∧
        (isPairingModeEnabled c dr.Namespace).1 = false))
    (hok : (Reconcile env c).err = none) :
    ∃ dr1, (Reconcile env c).cluster.registration = .ok dr1 ∧
      (dr1.Status.Phase = PhaseRejected ∨
        (dr1.Status.Phase = PhaseApproved ∧ dr1.Spec.Deactivate = false)) := by
  have hc := phase_consts
  by_cases hR : dr.Status.Phase = PhaseRejected
  · rw [Reconcile_stable env c dr hget (Or.inl hR)]
    exact ⟨dr, hget, Or.inl hR⟩
  by_cases hA : dr.Status.Phase = PhaseApproved
  · have hd : dr.Spec.Deactivate = false := by
      rcases hcase with h | h | h
      · exact h
      · exact absurd h hR
      · exact absurd hA h.1
    rw [Reconcile_stable env c dr hget (Or.inr ⟨hA, hd⟩)]
    exact ⟨dr, hget, Or.inr ⟨hA, hd⟩⟩
  by_cases hD : dr.Status.Phase = PhaseDeactivated
  · have hd : dr.Spec.Deactivate = false := by
      rcases hcase with h | h | h
      · exact h
      · exact absurd h hR
      · exact absurd hD h.2.1
    rw [Reconcile_reactivate env c dr hget hd hD, reactivateDevice_eq] at hok ⊢
    rcases statusUpdate_cases env c dr { dr with Status := reactivatedStatus dr.Status } hget
      with ⟨_, h⟩ | ⟨e, _, h⟩
    · rw [h]
      exact ⟨_, rfl, Or.inr ⟨rfl, hd⟩⟩
    · rw [h] at hok
      simp at hok
  · have hinit := Reconcile_initial env c dr hget hA hR (fun h => absurd h hD)
    rw [hinit] at hok ⊢
    rcases isPairingModeEnabled_cases c dr.Namespace with hf | hf | ⟨e, hf⟩
    · rw [handleInitialRegistration_closed env c dr hf] at hok ⊢
      rcases statusUpdate_cases env c dr { dr with Status := rejectedStatus dr.Status } hget
        with ⟨_, h⟩ | ⟨e, _, h⟩
      · rw [h]
        exact ⟨_, rfl, Or.inl rfl⟩
      · rw [h] at hok
        simp at hok
    · have hd : dr.Spec.Deactivate = false := by
        rcases hcase with h | h | h
        · exact h
        · exact absurd h hR
        · rw [hf] at h
          simp at h
      rw [handleInitialRegistration_open env c dr hf] at hok ⊢
      rcases statusUpdate_cases env c dr { dr with Status := approvedStatus env dr.Status } hget
        with ⟨_, h⟩ | ⟨e, _, h⟩
      · rw [h]
        exact ⟨_, rfl, Or.inr ⟨rfl, hd⟩⟩
      · rw [h] at hok
        simp at hok
    · rw [handleInitialRegistration_unreadable env c dr false e hf] at hok
      simp at hok

theorem setDeactivate_registration (b : Bool) (c : Cluster) (dr : DeviceRegistration)
    (hget : c.registration = .ok dr) :
    (setDeactivate b c).registration = .ok { dr with Spec := { dr.Spec with Deactivate := b } } := by
  simp [setDeactivate, hget]

theorem Cluster.status_of_registration (c : Cluster) (dr : DeviceRegistration)
    (hget : c.registration = .ok dr) : c.status = some dr.Status := by
  simp [Cluster.status, hget]

theorem Reconcile_deactivate_updates (env : Env) (c : Cluster) (dr : DeviceRegistration)
    (hget : c.registration = .ok dr) (hd : dr.Spec.Deactivate = true)
    (hp : dr.Status.Phase = PhaseApproved) :
    (Reconcile env c).updates = [{ dr with Status := deactivatedStatus dr.Status }] := by
  rw [Reconcile_deactivate env c dr hget hd hp, deactivateDevice_eq]

theorem Reconcile_deactivate_stored (env : Env) (c : Cluster) (dr : DeviceRegistration)
    (hget : c.registration = .ok dr) (hd : dr.Spec.Deactivate = true)
    (hp : dr.Status.Phase = PhaseApproved) (hup : env.updateErr = none) :
    (Reconcile env c).cluster.registration =
      .ok { dr with Status := deactivatedStatus dr.Status } := by
  rw [Reconcile_deactivate env c dr hget hd hp, deactivateDevice_eq,
    statusUpdate_accepted env c dr _ hget hup]

theorem Reconcile_reactivate_updates (env : Env) (c : Cluster) (dr : DeviceRegistration)
    (hget : c.registration = .ok dr) (hd : dr.Spec.Deactivate = false)
    (hp : dr.Status.Phase = PhaseDeactivated) :
    (Reconcile env c).updates = [{ dr with Status := reactivatedStatus dr.Status }] := by
  rw [Reconcile_reactivate env c dr hget hd hp, reactivateDevice_eq]

theorem Reconcile_reactivate_stored (env : Env) (c : Cluster) (dr : DeviceRegistration)
    (hget : c.registration = .ok dr) (hd : dr.Spec.Deactivate = false)
    (hp : dr.Status.Phase = PhaseDeactivated) (hup : env.updateErr = none) :
    (Reconcile env c).cluster.registration =
      .ok { dr with Status := reactivatedStatus dr.Status } := by
  rw [Reconcile_reactivate env c dr hget hd hp, reactivateDevice_eq,
    statusUpdate_accepted env c dr _ hget hup]

theorem stringAt_eq (m : Object) (key : String) :
    stringAt m key = ((stringField m key).getD "", (stringField m key).isSome) := by
  unfold stringAt stringField
  split <;> simp_all

theorem NestedMap_of_statusOf_some (obj st : Object) (h : statusOf obj = some st) :
    NestedMap obj "status" = (st, true, none) := by
  unfold statusOf at h
  unfold NestedMap
  split at h
  · rename_i m hm
    simp only [Option.some.injEq] at h
    subst h
    rw [hm]
  · simp at h

theorem NestedMap_of_statusOf_none (obj : Object) (h : statusOf obj = none) :
    (NestedMap obj "status").2.1 = false := by
  unfold statusOf at h
  unfold NestedMap
  split
  · rfl
  · rename_i m hm
    rw [hm] at h
    simp at h
  · rfl

/-- A poll step on a fetched object without a `status` map continues. -/
theorem condition_no_status (obj : Object) (d : String) (h : statusOf obj = none) :
    waitForApproval.condition (.ok obj) d = ((false, none), d) := by
  have hn := NestedMap_of_statusOf_none obj h
  unfold waitForApproval.condition
  simp only [hn, or_true, if_true]

/-- A poll step on a fetched object with a `status` map, by its string fields. -/
theorem condition_status (obj st : Object) (d : String) (h : statusOf obj = some st) :
    waitForApproval.condition (.ok obj) d =
      if (stringField st "phase").getD "" = "Approved" then
        if (stringField st "deviceUUID").isSome = true ∧
            (stringField st "deviceUUID").getD "" ≠ "" then
          ((true, none), (stringField st "deviceUUID").getD "")
        else ((false, none), d)
      else if (stringField st "phase").getD "" = "Rejected" then
        ((false, some ("registrazione rifiutata: " ++ (stringField st "message").getD "")), d)
      else ((false, none), d) := by
  unfold waitForApproval.condition
  simp only [NestedMap_of_statusOf_some obj st h, stringAt_eq]
  simp

theorem getD_eq_iff_of_ne_empty (o : Option String) (s : String) (hs : s ≠ "") :
    o.getD "" = s ↔ o = some s := by
  cases o with
  | none => simp [Ne.symm hs]
  | some v => simp

/-- A poll step on an `Approved` object with a non-empty UUID reports success. -/
theorem condition_approved (obj : Object) (d : String) (st : Object) (u : String)
    (hs : statusOf obj = some st) (hp : stringField st "phase" = some "Approved")
    (hu : stringField st "deviceUUID" = some u) (hne : u ≠ "") :
    waitForApproval.condition (.ok obj) d = ((true, none), u) := by
  rw [condition_status obj st d hs]
  simp [hp, hu, hne]

/-- A poll step on a `Rejected` object reports the rejection error. -/
theorem condition_rejected (obj : Object) (d : String) (st : Object)
    (hs : statusOf obj = some st) (hp : stringField st "phase" = some "Rejected") :
    waitForApproval.condition (.ok obj) d =
      ((false, some ("registrazione rifiutata: " ++ (stringField st "message").getD "")), d) := by
  have hAR : ("Rejected" : String) ≠ "Approved" := by decide
  rw [condition_status obj st d hs]
  simp [hp, hAR]

/-- A poll step on any other fetched object reports neither success nor an error. -/
theorem condition_other (obj : Object) (d : String)
    (h1 : ¬ ∃ st u, statusOf obj = some st ∧ stringField st "phase" = some "Approved" ∧
      stringField st "deviceUUID" = some u ∧ u ≠ "")
    (h2 : ¬ ∃ st, statusOf obj = some st ∧ stringField st "phase" = some "Rejected") :
    waitForApproval.condition (.ok obj) d = ((false, none), d) := by
  have hA : ∀ o : Option String, o.getD "" = "Approved" ↔ o = some "Approved" :=
    fun o => getD_eq_iff_of_ne_empty o _ (by decide)
  have hR : ∀ o : Option String, o.getD "" = "Rejected" ↔ o = some "Rejected" :=
    fun o => getD_eq_iff_of_ne_empty o _ (by decide)
  cases hs : statusOf obj with
  | none => exact condition_no_status obj d hs
  | some st =>
    rw [condition_status obj st d hs]
    have hnr : stringField st "phase" ≠ some "Rejected" := fun hp => h2 ⟨st, hs, hp⟩
    by_cases hp : stringField st "phase" = some "Approved"
    · have hnu : ¬ ((stringField st "deviceUUID").isSome = true ∧
          (stringField st "deviceUUID").getD "" ≠ "") := by
        rintro ⟨hsome, hne⟩
        obtain ⟨u, hu⟩ := Option.isSome_iff_exists.mp hsome
        exact h1 ⟨st, u, hs, hp, hu, by simpa [hu] using hne⟩
      rw [if_pos ((hA _).mpr hp), if_neg hnu]
    · rw [if_neg (fun h => hp ((hA _).mp h)), if_neg (fun h => hnr ((hR _).mp h))]

/-- A poll step that does not report success leaves the captured variable alone. -/
theorem condition_keeps_variable (a : Except String Object) (d : String)
    (h : (waitForApproval.condition a d).1 ≠ (true, none)) :
    (waitForApproval.condition a d).2 = d := by
  cases a with
  | error e => rfl
  | ok obj =>
    cases hs : statusOf obj with
    | none => rw [condition_no_status obj d hs]
    | some st =>
      rw [condition_status obj st d hs] at h ⊢
      split_ifs at h ⊢ <;> simp_all

/-- A poll step reports success only with a non-empty UUID in the captured variable. -/
theorem condition_done_nonempty (a : Except String Object) (d : String)
    (h : (waitForApproval.condition a d).1 = (true, none)) :
    (waitForApproval.condition a d).2 ≠ "" := by
  cases a with
  | error e => simp [waitForApproval.condition] at h
  | ok obj =>
    cases hs : statusOf obj with
    | none => rw [condition_no_status obj d hs] at h; simp at h
    | some st =>
      rw [condition_status obj st d hs] at h ⊢
      split_ifs at h ⊢ <;> simp_all

/-- The poll loop passes over attempts that are not yet ready. -/
theorem pollLoop_skip (ctxErr : String) (pre rest : List (Except String Object))
    (hpre : ∀ a ∈ pre, (waitForApproval.condition a "").1 = (false, none)) :
    pollLoop ctxErr waitForApproval.condition (pre ++ rest) "" =
      pollLoop ctxErr waitForApproval.condition rest "" := by
  induction pre with
  | nil => rfl
  | cons a pre ih =>
    have ha := hpre a (List.mem_cons_self a pre)
    have hk := condition_keeps_variable a "" (by rw [ha]; simp)
    have hc : waitForApproval.condition a "" = ((false, none), "") := Prod.ext ha hk
    rw [List.cons_append, pollLoop, hc]
    exact ih (fun b hb => hpre b (List.mem_cons_of_mem a hb))

/-- A successful poll loop started with an empty variable ends with a non-empty one. -/
theorem pollLoop_success_nonempty (ctxErr : String) (l : List (Except String Object))
    (u : String)
    (h : pollLoop ctxErr waitForApproval.condition l "" = (none, u)) : u ≠ "" := by
  induction l with
  | nil => simp [pollLoop] at h
  | cons a l ih =>
    rw [pollLoop] at h
    rcases hc : waitForApproval.condition a "" with ⟨⟨b, e⟩, s1⟩
    rw [hc] at h
    cases e with
    | some err => simp at h
    | none =>
      cases b with
      | true =>
        simp only [Prod.mk.injEq, true_and] at h
        have := condition_done_nonempty a "" (by rw [hc])
        rw [hc] at this
        exact h ▸ this
      | false =>
        have hk := condition_keeps_variable a "" (by rw [hc]; simp)
        rw [hc] at hk
        simp only at hk h
        subst hk
        exact ih h

/-- The answer of `waitForApproval` when the attempts before the deciding one are
not yet ready. -/
theorem waitForApproval_skips_not_ready (env : GatewayEnv)
    (pre post : List (Except String Object)) (a : Except String Object)
    (hseq : env.firstGet :: env.laterGets = pre ++ a :: post)
    (hpre : ∀ b ∈ pre, (waitForApproval.condition b "").1 = (false, none)) :
    waitForApproval env =
      match pollLoop env.ctxErr waitForApproval.condition (a :: post) "" with
      | (some err, _) => ("", some err)
      | (none, deviceUUID) => (deviceUUID, none) := by
  unfold waitForApproval PollImmediateUntilWithContext
  rw [hseq, pollLoop_skip env.ctxErr pre (a :: post) hpre]

/-- Past validation and an accepted `Create`, the response is decided by `waitForApproval`. -/
theorem ServeHTTP_polled (h : gatewayHandler) (env : GatewayEnv) (r : Request)
    (req : EnrollmentRequest) (hm : r.Method = MethodPost) (hb : r.Body = some req)
    (hk : req.PublicKey ≠ "") (hc : env.createErr = none) :
    (ServeHTTP h env r).response =
      match waitForApproval env with
      | (_, some err) => httpError ("Registrazione fallita: " ++ err) StatusForbidden
      | (uuid, none) =>
        ⟨StatusOK, "application/json", .json ⟨uuid, "Dispositivo registrato con successo."⟩⟩ := by
  unfold ServeHTTP createDeviceRegistrationResource
  simp only [hm, hb, hk, hc, ne_eq, not_true_eq_false, if_false]
  rcases waitForApproval env with ⟨u, _ | e⟩ <;> rfl

/-- When no attempt made before the context is done is ready, `waitForApproval`
returns the error of the poller's context. -/
theorem waitForApproval_never_ready (env : GatewayEnv)
    (hnot : ∀ b ∈ env.firstGet :: env.laterGets,
      (waitForApproval.condition b "").1 = (false, none)) :
    waitForApproval env = ("", some env.ctxErr) := by
  have hskip := pollLoop_skip env.ctxErr (env.firstGet :: env.laterGets) [] hnot
  rw [List.append_nil] at hskip
  unfold waitForApproval PollImmediateUntilWithContext
  rw [hskip]
  rfl

/-- Two error texts give the same `http.Error` body only when they are the same text. -/
theorem httpError_body_inj (a b : String) (c d : Nat)
    (h : (httpError ("Registrazione fallita: " ++ a) c).body =
      (httpError ("Registrazione fallita: " ++ b) d).body) : a = b := by
  simp only [httpError, Body.text.injEq] at h
  have hd := congrArg String.data h
  simp only [String.data_append] at hd
  exact String.ext (List.append_cancel_left (List.append_cancel_right hd))

/-- The poll loop at an `Approved` object with a non-empty UUID ends with success and
that UUID, whatever would follow. -/
theorem pollLoop_step_approved (ctxErr : String) (obj : Object)
    (rest : List (Except String Object)) (d : String) (st : Object) (u : String)
    (hs : statusOf obj = some st) (hp : stringField st "phase" = some "Approved")
    (hu : stringField st "deviceUUID" = some u) (hne : u ≠ "") :
    pollLoop ctxErr waitForApproval.condition (.ok obj :: rest) d = (none, u) := by
  rw [pollLoop, condition_approved obj d st u hs hp hu hne]

/-- The poll loop at a `Rejected` object ends with the rejection error, whatever
would follow. -/
theorem pollLoop_step_rejected (ctxErr : String) (obj : Object)
    (rest : List (Except String Object)) (d : String) (st : Object)
    (hs : statusOf obj = some st) (hp : stringField st "phase" = some "Rejected") :
    pollLoop ctxErr waitForApproval.condition (.ok obj :: rest) d =
      (some ("registrazione rifiutata: " ++ (stringField st "message").getD ""), d) := by
  rw [pollLoop, condition_rejected obj d st hs hp]

/-- The poll loop at any other fetched object goes on to the next attempt. -/
theorem pollLoop_step_other (ctxErr : String) (obj : Object)
    (rest : List (Except String Object)) (d : String)
    (h1 : ¬ ∃ st u, statusOf obj = some st ∧ stringField st "phase" = some "Approved" ∧
      stringField st "deviceUUID" = some u ∧ u ≠ "")
    (h2 : ¬ ∃ st, statusOf obj = some st ∧ stringField st "phase" = some "Rejected") :
    pollLoop ctxErr waitForApproval.condition (.ok obj :: rest) d =
      pollLoop ctxErr waitForApproval.condition rest d := by
  rw [pollLoop, condition_other obj d h1 h2]

/-! ## The claims -/

/-- C1 (the code departs from the claim): in the history of one object — created by
the gateway, approved with UUID `U1`, then deactivated by the administrator — a
further reconciliation with nothing changed takes the `Deactivated` object through
the initial-registration branch and replaces `deviceUUID` by the fresh `U3` and the
timestamp by `T3`. -/
theorem C1_deviceUUID_replaced_after_deactivation :
    history1.status = some ⟨"Approved", "Device registered successfully.", "T1", "U1", []⟩ ∧
    history2.status =
      some ⟨"Deactivated", "Device has been deactivated by an administrator.", "T1", "U1", []⟩ ∧
    history3.status = some ⟨"Approved", "Device registered successfully.", "T3", "U3", []⟩ := by
  decide

/-- C2, counterexample: an empty-phase object with `deactivate` set and enrollment
open is approved by a first error-free reconciliation, and the immediately following
one, Spec and flag source unchanged, writes the status and moves the phase to
`Deactivated`. -/
theorem C2_second_reconcile_writes :
    (Reconcile ⟨none, "U1", "T1"⟩ (setDeactivate true history0)).err = none ∧
    (Reconcile ⟨none, "U1", "T1"⟩ (setDeactivate true history0)).cluster.status =
      some ⟨"Approved", "Device registered successfully.", "T1", "U1", []⟩ ∧
    (Reconcile ⟨none, "U2", "T2"⟩
      (Reconcile ⟨none, "U1", "T1"⟩ (setDeactivate true history0)).cluster).updates ≠ [] ∧
    (Reconcile ⟨none, "U2", "T2"⟩
      (Reconcile ⟨none, "U1", "T1"⟩ (setDeactivate true history0)).cluster).cluster.status =
      some ⟨"Deactivated", "Device has been deactivated by an administrator.", "T1", "U1", []⟩ := by
  decide

/-- C2, amended: for every object with `deactivate` unset (in any phase), or in phase
`Rejected`, or in a phase other than `Approved` and `Deactivated` while the flag
source does not enable pairing: if one reconciliation completes without error, the
immediately following one (Spec and flag source unchanged, any environment) hands
nothing to the status write, leaves the cluster as it is, and returns the empty
result without error. -/
theorem C2_idempotent_without_pending_deactivation (env1 env2 : Env) (c : Cluster)
    (dr : DeviceRegistration) (hget : c.registration = .ok dr)
    (hcase : dr.Spec.Deactivate = false ∨ dr.Status.Phase = PhaseRejected ∨
      (dr.Status.Phase ≠ PhaseApproved ∧ dr.Status.Phase ≠ PhaseDeactivated ∧
        (isPairingModeEnabled c dr.Namespace).1 = false))
    (hok : (Reconcile env1 c).err = none) :
    (Reconcile env2 (Reconcile env1 c).cluster).updates = [] ∧
    (Reconcile env2 (Reconcile env1 c).cluster).cluster = (Reconcile env1 c).cluster ∧
    (Reconcile env2 (Reconcile env1 c).cluster).err = none ∧
    (Reconcile env2 (Reconcile env1 c).cluster).result = Result.empty := by
  obtain ⟨dr1, h1, hst⟩ := Reconcile_settles env1 c dr hget hcase hok
  rw [Reconcile_stable env2 _ dr1 h1 hst]
  exact ⟨rfl, rfl, rfl, rfl⟩

/-- C2, amended, at the object the gateway created with enrollment open: the second
reconciliation changes nothing. -/
theorem C2_idempotent_without_pending_deactivation_witness :
    (Reconcile ⟨none, "U1", "T1"⟩ history0).err = none ∧
    (Reconcile ⟨none, "U2", "T2"⟩ (Reconcile ⟨none, "U1", "T1"⟩ history0).cluster).updates = [] ∧
    (Reconcile ⟨none, "U2", "T2"⟩ (Reconcile ⟨none, "U1", "T1"⟩ history0).cluster).cluster =
      (Reconcile ⟨none, "U1", "T1"⟩ history0).cluster ∧
    (Reconcile ⟨none, "U2", "T2"⟩ (Reconcile ⟨none, "U1", "T1"⟩ history0).cluster).err = none ∧
    (Reconcile ⟨none, "U2", "T2"⟩ (Reconcile ⟨none, "U1", "T1"⟩ history0).cluster).result =
      Result.empty :=
  ⟨by decide,
    C2_idempotent_without_pending_deactivation ⟨none, "U1", "T1"⟩ ⟨none, "U2", "T2"⟩ history0
      (freshRegistration "dev-reg-0a1b2c3d" "default" "PEM-KEY-A") rfl (Or.inl rfl) (by decide)⟩

/-- C3: for every object whose phase is empty or `Pending`, if the ConfigMap
`device-pairing-config` does not exist, or has no key `enabled`, or holds another
value than `true`, `Reconcile` hands to the status write the object with phase
`Rejected`, the rejection message, and `deviceUUID` and `registrationTimestamp` as
they were; an accepted write stores exactly that and the call returns the empty
result without error; a refused write leaves the cluster as it was and returns the
write error. -/
theorem C3_closed_enrollment_rejects (env : Env) (c : Cluster) (dr : DeviceRegistration)
    (hget : c.registration = .ok dr)
    (hphase : dr.Status.Phase = "" ∨ dr.Status.Phase = PhasePending)
    (hflag : c.configMaps dr.Namespace PairingConfigMapName = .notFound ∨
      (∃ cm, c.configMaps dr.Namespace PairingConfigMapName = .ok cm ∧
        cm.Data.lookup "enabled" = none) ∨
      (∃ cm v, c.configMaps dr.Namespace PairingConfigMapName = .ok cm ∧
        cm.Data.lookup "enabled" = some v ∧ v ≠ "true")) :
    (Reconcile env c).updates = [{ dr with Status :=
      { Phase := PhaseRejected,
        Message := "Pairing mode is not enabled. The request is rejected.",
        RegistrationTimestamp := dr.Status.RegistrationTimestamp,
        DeviceUUID := dr.Status.DeviceUUID,
        Conditions := dr.Status.Conditions } }] ∧
    (env.updateErr = none →
      (Reconcile env c).cluster.registration = .ok { dr with Status :=
        { Phase := PhaseRejected,
          Message := "Pairing mode is not enabled. The request is rejected.",
          RegistrationTimestamp := dr.Status.RegistrationTimestamp,
          DeviceUUID := dr.Status.DeviceUUID,
          Conditions := dr.Status.Conditions } } ∧
      (Reconcile env c).err = none ∧ (Reconcile env c).result = Result.empty) ∧
    (∀ e, env.updateErr = some e →
      (Reconcile env c).cluster = c ∧ (Reconcile env c).err = some e) := by
  obtain ⟨hA, hR, hD⟩ := empty_or_pending_initial dr hphase
  rw [Reconcile_initial env c dr hget hA hR (fun h => absurd h hD),
    handleInitialRegistration_closed env c dr (isPairingModeEnabled_closed c dr.Namespace hflag)]
  refine ⟨rfl, fun hup => ?_, fun e hup => ?_⟩
  · rw [statusUpdate_accepted env c dr _ hget hup]
    exact ⟨rfl, rfl, rfl⟩
  · rw [statusUpdate_refused env c _ e hup]
    exact ⟨rfl, rfl⟩

/-- C3 at a fresh object and a ConfigMap holding `enabled = false`, the write accepted. -/
theorem C3_closed_enrollment_rejects_witness :
    (Reconcile ⟨none, "U1", "T1"⟩
      (Cluster.mk1 (freshRegistration "dev-reg-0a1b2c3d" "default" "PEM-KEY-B")
        (flagValue "false"))).cluster.status =
      some ⟨"Rejected", "Pairing mode is not enabled. The request is rejected.", "", "", []⟩ ∧
    (Reconcile ⟨none, "U1", "T1"⟩
      (Cluster.mk1 (freshRegistration "dev-reg-0a1b2c3d" "default" "PEM-KEY-B")
        (flagValue "false"))).err = none := by
  have h := (C3_closed_enrollment_rejects ⟨none, "U1", "T1"⟩
    (Cluster.mk1 (freshRegistration "dev-reg-0a1b2c3d" "default" "PEM-KEY-B") (flagValue "false"))
    (freshRegistration "dev-reg-0a1b2c3d" "default" "PEM-KEY-B") rfl (Or.inl rfl)
    (Or.inr (Or.inr ⟨⟨[("enabled", "false")]⟩, "false", rfl, by decide, by decide⟩))).2.1 rfl
  refine ⟨?_, h.2.1⟩
  simp only [Cluster.status, h.1]
  decide

/-- C4: for every object whose phase is empty or `Pending`, if reading the ConfigMap
fails with an error other than not-found, `Reconcile` hands nothing to the status
write, leaves the cluster (so the phase) as it was, and returns a requeue after
15 seconds together with the wrapped read error. -/
theorem C4_flag_read_failure_defers (env : Env) (c : Cluster) (dr : DeviceRegistration)
    (e : String) (hget : c.registration = .ok dr)
    (hphase : dr.Status.Phase = "" ∨ dr.Status.Phase = PhasePending)
    (hflag : c.configMaps dr.Namespace PairingConfigMapName = .failed e) :
    (Reconcile env c).updates = [] ∧
    (Reconcile env c).cluster = c ∧
    (Reconcile env c).result = ⟨false, 15 * Second⟩ ∧
    (Reconcile env c).result.RequeueAfter = 15000000000 ∧
    (Reconcile env c).err = some ("impossibile ottenere il ConfigMap di pairing: " ++ e) := by
  obtain ⟨hA, hR, hD⟩ := empty_or_pending_initial dr hphase
  rw [Reconcile_initial env c dr hget hA hR (fun h => absurd h hD),
    handleInitialRegistration_unreadable env c dr false _
      (isPairingModeEnabled_failed c dr.Namespace e hflag)]
  exact ⟨rfl, rfl, rfl, rfl, rfl⟩

/-- C4 at a fresh object and a ConfigMap read that times out. -/
theorem C4_flag_read_failure_defers_witness :
    (Reconcile ⟨none, "U1", "T1"⟩
      (Cluster.mk1 (freshRegistration "dev-reg-0a1b2c3d" "default" "PEM-KEY-C")
        (.failed "etcdserver: request timed out"))).updates = [] ∧
    (Reconcile ⟨none, "U1", "T1"⟩
      (Cluster.mk1 (freshRegistration "dev-reg-0a1b2c3d" "default" "PEM-KEY-C")
        (.failed "etcdserver: request timed out"))).result.RequeueAfter = 15000000000 :=
  have h := C4_flag_read_failure_defers ⟨none, "U1", "T1"⟩
    (Cluster.mk1 (freshRegistration "dev-reg-0a1b2c3d" "default" "PEM-KEY-C")
      (.failed "etcdserver: request timed out"))
    (freshRegistration "dev-reg-0a1b2c3d" "default" "PEM-KEY-C")
    "etcdserver: request timed out" rfl (Or.inl rfl) rfl
  ⟨h.1, h.2.2.2.1⟩

/-- C5: for every `Approved` object with UUID `U` and timestamp `T`, and every
flag-source state: after the administrator sets `deactivate`, `Reconcile` hands to
the status write the phase `Deactivated` with `U` and `T`; when that write is
accepted the stored status is exactly that, and after the administrator unsets
`deactivate` the next `Reconcile` hands over the phase `Approved` with `U` and `T`,
which an accepted write stores. -/
theorem C5_deactivate_reactivate_keeps_identity (env1 env2 : Env) (c : Cluster)
    (dr : DeviceRegistration) (hget : c.registration = .ok dr)
    (hphase : dr.Status.Phase = PhaseApproved) :
    (Reconcile env1 (setDeactivate true c)).updates.map (fun o => o.Status) =
      [{ Phase := PhaseDeactivated,
         Message := "Device has been deactivated by an administrator.",
         RegistrationTimestamp := dr.Status.RegistrationTimestamp,
         DeviceUUID := dr.Status.DeviceUUID,
         Conditions := dr.Status.Conditions }] ∧
    (env1.updateErr = none →
      (Reconcile env1 (setDeactivate true c)).cluster.status =
        some { Phase := PhaseDeactivated,
               Message := "Device has been deactivated by an administrator.",
               RegistrationTimestamp := dr.Status.RegistrationTimestamp,
               DeviceUUID := dr.Status.DeviceUUID,
               Conditions := dr.Status.Conditions } ∧
      (Reconcile env2
        (setDeactivate false (Reconcile env1 (setDeactivate true c)).cluster)).updates.map
          (fun o => o.Status) =
        [{ Phase := PhaseApproved,
           Message := "Device has been reactivated.",
           RegistrationTimestamp := dr.Status.RegistrationTimestamp,
           DeviceUUID := dr.Status.DeviceUUID,
           Conditions := dr.Status.Conditions }] ∧
      (env2.updateErr = none →
        (Reconcile env2
          (setDeactivate false (Reconcile env1 (setDeactivate true c)).cluster)).cluster.status =
          some { Phase := PhaseApproved,
                 Message := "Device has been reactivated.",
                 RegistrationTimestamp := dr.Status.RegistrationTimestamp,
                 DeviceUUID := dr.Status.DeviceUUID,
                 Conditions := dr.Status.Conditions })) := by
  have hset := setDeactivate_registration true c dr hget
  have hupd := Reconcile_deactivate_updates env1 _ _ hset rfl hphase
  refine ⟨by rw [hupd]; rfl, fun hup1 => ?_⟩
  have h1 := Reconcile_deactivate_stored env1 _ _ hset rfl hphase hup1
  have hset2 := setDeactivate_registration false _ _ h1
  have hupd2 := Reconcile_reactivate_updates env2 _ _ hset2 rfl rfl
  refine ⟨by rw [Cluster.status_of_registration _ _ h1]; rfl, by rw [hupd2]; rfl,
    fun hup2 => ?_⟩
  have h2 := Reconcile_reactivate_stored env2 _ _ hset2 rfl rfl hup2
  rw [Cluster.status_of_registration _ _ h2]
  rfl

/-- C5 at the approved object of the history (`U1`, `T1`), both writes accepted. -/
theorem C5_deactivate_reactivate_keeps_identity_witness :
    (Reconcile ⟨none, "U2", "T2"⟩ (setDeactivate true history1)).cluster.status =
      some ⟨"Deactivated", "Device has been deactivated by an administrator.", "T1", "U1", []⟩ ∧
    (Reconcile ⟨none, "U3", "T3"⟩ (setDeactivate false
      (Reconcile ⟨none, "U2", "T2"⟩ (setDeactivate true history1)).cluster)).cluster.status =
      some ⟨"Approved", "Device has been reactivated.", "T1", "U1", []⟩ :=
  have h := (C5_deactivate_reactivate_keeps_identity ⟨none, "U2", "T2"⟩ ⟨none, "U3", "T3"⟩
    history1
    ⟨"dev-reg-0a1b2c3d", "default", ⟨"PEM-KEY-A", false⟩,
      ⟨"Approved", "Device registered successfully.", "T1", "U1", []⟩⟩
    rfl rfl).2 rfl
  ⟨h.1, h.2.2 rfl⟩

/-- C6: for every object whose phase is empty or `Pending`, if the ConfigMap holds
`enabled = true` and the status write is accepted, `Reconcile` stores phase
`Approved`, the success message, the current time as `registrationTimestamp` and the
freshly generated identifier as `deviceUUID`, and returns the empty result (no
requeue) without error. -/
theorem C6_open_enrollment_approves (env : Env) (c : Cluster) (dr : DeviceRegistration)
    (cm : ConfigMap) (hget : c.registration = .ok dr)
    (hphase : dr.Status.Phase = "" ∨ dr.Status.Phase = PhasePending)
    (hflag : c.configMaps dr.Namespace PairingConfigMapName = .ok cm)
    (henabled : cm.Data.lookup "enabled" = some "true")
    (hup : env.updateErr = none) :
    (Reconcile env c).cluster.registration = .ok { dr with Status :=
      { Phase := PhaseApproved,
        Message := "Device registered successfully.",
        RegistrationTimestamp := env.now,
        DeviceUUID := env.newUUID,
        Conditions := dr.Status.Conditions } } ∧
    (Reconcile env c).updates = [{ dr with Status :=
      { Phase := PhaseApproved,
        Message := "Device registered successfully.",
        RegistrationTimestamp := env.now,
        DeviceUUID := env.newUUID,
        Conditions := dr.Status.Conditions } }] ∧
    (Reconcile env c).err = none ∧
    (Reconcile env c).result = Result.empty ∧
    (Reconcile env c).result.Requeue = false ∧ (Reconcile env c).result.RequeueAfter = 0 := by
  obtain ⟨hA, hR, hD⟩ := empty_or_pending_initial dr hphase
  rw [Reconcile_initial env c dr hget hA hR (fun h => absurd h hD),
    handleInitialRegistration_open env c dr
      (isPairingModeEnabled_open c dr.Namespace cm hflag henabled),
    statusUpdate_accepted env c dr _ hget hup]
  exact ⟨rfl, rfl, rfl, rfl, rfl, rfl⟩

/-- C6 at the object the gateway created, with `enabled = true` and the write accepted. -/
theorem C6_open_enrollment_approves_witness :
    (Reconcile ⟨none, "U1", "2026-01-01T00:00:00Z"⟩ history0).cluster.registration =
      .ok ⟨"dev-reg-0a1b2c3d", "default", ⟨"PEM-KEY-A", false⟩,
        ⟨"Approved", "Device registered successfully.", "2026-01-01T00:00:00Z", "U1", []⟩⟩ ∧
    (Reconcile ⟨none, "U1", "2026-01-01T00:00:00Z"⟩ history0).err = none :=
  have h := C6_open_enrollment_approves ⟨none, "U1", "2026-01-01T00:00:00Z"⟩ history0
    (freshRegistration "dev-reg-0a1b2c3d" "default" "PEM-KEY-A") ⟨[("enabled", "true")]⟩
    rfl (Or.inl rfl) rfl (by decide) rfl
  ⟨h.1, h.2.2.1⟩

/-- C7: for every object whose phase is `Rejected` (any `deactivate`), or `Approved`
with `deactivate` unset, and for every flag-source state (an unreadable one
included) and every environment, `Reconcile` hands nothing to the status write,
leaves the cluster as it was, and returns the empty result without error. -/
theorem C7_terminal_phases_stable (env : Env) (c : Cluster) (dr : DeviceRegistration)
    (hget : c.registration = .ok dr)
    (hphase : dr.Status.Phase = PhaseRejected ∨
      (dr.Status.Phase = PhaseApproved ∧ dr.Spec.Deactivate = false)) :
    (Reconcile env c).updates = [] ∧
    (Reconcile env c).cluster = c ∧
    (Reconcile env c).result = Result.empty ∧
    (Reconcile env c).result.Requeue = false ∧ (Reconcile env c).result.RequeueAfter = 0 ∧
    (Reconcile env c).err = none := by
  rw [Reconcile_stable env c dr hget hphase]
  exact ⟨rfl, rfl, rfl, rfl, rfl, rfl⟩

/-- C7 at a `Rejected` object with `deactivate` set and an unreadable flag source. -/
theorem C7_terminal_phases_stable_witness :
    (Reconcile ⟨some "conflict", "U9", "T9"⟩
      (Cluster.mk1 ⟨"dev-reg-0a1b2c3d", "default", ⟨"PEM-KEY-A", true⟩,
        ⟨"Rejected", "Pairing mode is not enabled. The request is rejected.", "", "", []⟩⟩
        (.failed "etcdserver: request timed out"))).updates = [] ∧
    (Reconcile ⟨some "conflict", "U9", "T9"⟩
      (Cluster.mk1 ⟨"dev-reg-0a1b2c3d", "default", ⟨"PEM-KEY-A", true⟩,
        ⟨"Rejected", "Pairing mode is not enabled. The request is rejected.", "", "", []⟩⟩
        (.failed "etcdserver: request timed out"))).err = none :=
  have h := C7_terminal_phases_stable ⟨some "conflict", "U9", "T9"⟩
    (Cluster.mk1 ⟨"dev-reg-0a1b2c3d", "default", ⟨"PEM-KEY-A", true⟩,
      ⟨"Rejected", "Pairing mode is not enabled. The request is rejected.", "", "", []⟩⟩
      (.failed "etcdserver: request timed out"))
    _ rfl (Or.inl rfl)
  ⟨h.1, h.2.2.2.2.2⟩

/-- C8: for every successfully fetched object, one poll step (a) reports success,
with `status.deviceUUID` in the captured variable, exactly when `status.phase` is
`Approved` and `status.deviceUUID` is a non-empty string; (b) reports an error
exactly when `status.phase` is `Rejected`, and the error is the rejection text
followed by `status.message`; (c) in every other case reports neither and leaves the
variable alone. In the poll loop the step accordingly (a) ends polling with success
and that UUID, whatever would follow, exactly in the first case; (b) ends polling
with the rejection error, whatever would follow, exactly in the second; (c) otherwise
goes on to the next attempt. So `waitForApproval`, once the earlier attempts were not
yet ready, returns the UUID without error at an `Approved` object with a non-empty
UUID, returns the rejection error at a `Rejected` object, and otherwise returns what
the later attempts give. And `waitForApproval` never returns an empty UUID without an
error. -/
theorem C8_poll_step_outcome (obj : Object) (d : String) :
    ((waitForApproval.condition (.ok obj) d).1 = (true, none) ↔
      ∃ st u, statusOf obj = some st ∧ stringField st "phase" = some "Approved" ∧
        stringField st "deviceUUID" = some u ∧ u ≠ "") ∧
    (∀ st u, statusOf obj = some st → stringField st "phase" = some "Approved" →
      stringField st "deviceUUID" = some u → u ≠ "" →
      waitForApproval.condition (.ok obj) d = ((true, none), u)) ∧
    ((∃ e, (waitForApproval.condition (.ok obj) d).1.2 = some e) ↔
      ∃ st, statusOf obj = some st ∧ stringField st "phase" = some "Rejected") ∧
    (∀ st, statusOf obj = some st → stringField st "phase" = some "Rejected" →
      waitForApproval.condition (.ok obj) d =
        ((false, some ("registrazione rifiutata: " ++ (stringField st "message").getD "")), d)) ∧
    ((¬ ∃ st u, statusOf obj = some st ∧ stringField st "phase" = some "Approved" ∧
        stringField st "deviceUUID" = some u ∧ u ≠ "") →
      (¬ ∃ st, statusOf obj = some st ∧ stringField st "phase" = some "Rejected") →
      waitForApproval.condition (.ok obj) d = ((false, none), d)) ∧
    (∀ env : GatewayEnv, (waitForApproval env).2 = none → (waitForApproval env).1 ≠ "") ∧
    (∀ (ctxErr : String) (rest : List (Except String Object)) (st : Object) (u : String),
      statusOf obj = some st → stringField st "phase" = some "Approved" →
      stringField st "deviceUUID" = some u → u ≠ "" →
      pollLoop ctxErr waitForApproval.condition (.ok obj :: rest) d = (none, u)) ∧
    (∀ (ctxErr : String) (rest : List (Except String Object)) (st : Object),
      statusOf obj = some st → stringField st "phase" = some "Rejected" →
      pollLoop ctxErr waitForApproval.condition (.ok obj :: rest) d =
        (some ("registrazione rifiutata: " ++ (stringField st "message").getD ""), d)) ∧
    (∀ (ctxErr : String) (rest : List (Except String Object)),
      (¬ ∃ st u, statusOf obj = some st ∧ stringField st "phase" = some "Approved" ∧
        stringField st "deviceUUID" = some u ∧ u ≠ "") →
      (¬ ∃ st, statusOf obj = some st ∧ stringField st "phase" = some "Rejected") →
      pollLoop ctxErr waitForApproval.condition (.ok obj :: rest) d =
        pollLoop ctxErr waitForApproval.condition rest d) ∧
    ((∀ (ctxErr : String) (rest : List (Except String Object)),
        (pollLoop ctxErr waitForApproval.condition (.ok obj :: rest) d).1 = none) ↔
      ∃ st u, statusOf obj = some st ∧ stringField st "phase" = some "Approved" ∧
        stringField st "deviceUUID" = some u ∧ u ≠ "") ∧
    ((∀ (ctxErr : String) (rest : List (Except String Object)),
        ∃ e, (pollLoop ctxErr waitForApproval.condition (.ok obj :: rest) d).1 = some e) ↔
      ∃ st, statusOf obj = some st ∧ stringField st "phase" = some "Rejected") ∧
    (∀ (env : GatewayEnv) (pre post : List (Except String Object)),
      env.firstGet :: env.laterGets = pre ++ .ok obj :: post →
      (∀ b ∈ pre, (waitForApproval.condition b "").1 = (false, none)) →
      (∀ st u, statusOf obj = some st → stringField st "phase" = some "Approved" →
        stringField st "deviceUUID" = some u → u ≠ "" → waitForApproval env = (u, none)) ∧
      (∀ st, statusOf obj = some st → stringField st "phase" = some "Rejected" →
        waitForApproval env =
          ("", some ("registrazione rifiutata: " ++ (stringField st "message").getD ""))) ∧
      ((¬ ∃ st u, statusOf obj = some st ∧ stringField st "phase" = some "Approved" ∧
          stringField st "deviceUUID" = some u ∧ u ≠ "") →
        (¬ ∃ st, statusOf obj = some st ∧ stringField st "phase" = some "Rejected") →
        waitForApproval env =
          match pollLoop env.ctxErr waitForApproval.condition post "" with
          | (some err, _) => ("", some err)
          | (none, deviceUUID) => (deviceUUID, none))) := by
  have succ := condition_approved obj d
  have rej := condition_rejected obj d
  have other := condition_other obj d
  refine ⟨⟨fun h => ?_, fun ⟨st, u, hs, hp, hu, hne⟩ => by rw [succ st u hs hp hu hne]⟩,
    succ, ⟨fun ⟨e, h⟩ => ?_, fun ⟨st, hs, hp⟩ => ⟨_, by rw [rej st hs hp]⟩⟩, rej, other,
    fun env herr => ?_,
    fun ctxErr rest st u hs hp hu hne =>
      pollLoop_step_approved ctxErr obj rest d st u hs hp hu hne,
    fun ctxErr rest st hs hp => pollLoop_step_rejected ctxErr obj rest d st hs hp,
    fun ctxErr rest h1 h2 => pollLoop_step_other ctxErr obj rest d h1 h2,
    ⟨fun h => ?_, fun ⟨st, u, hs, hp, hu, hne⟩ ctxErr rest => by
      rw [pollLoop_step_approved ctxErr obj rest d st u hs hp hu hne]⟩,
    ⟨fun h => ?_, fun ⟨st, hs, hp⟩ ctxErr rest =>
      ⟨_, by rw [pollLoop_step_rejected ctxErr obj rest d st hs hp]⟩⟩,
    fun env pre post hseq hpre => ⟨fun st u hs hp hu hne => ?_, fun st hs hp => ?_,
      fun h1 h2 => ?_⟩⟩
  · by_contra hno
    by_cases hrj : ∃ st, statusOf obj = some st ∧ stringField st "phase" = some "Rejected"
    · obtain ⟨st, hs, hp⟩ := hrj
      rw [rej st hs hp] at h
      simp at h
    · rw [other hno hrj] at h
      simp at h
  · by_contra hno
    by_cases hap : ∃ st u, statusOf obj = some st ∧ stringField st "phase" = some "Approved" ∧
        stringField st "deviceUUID" = some u ∧ u ≠ ""
    · obtain ⟨st, u, hs, hp, hu, hne⟩ := hap
      rw [succ st u hs hp hu hne] at h
      simp at h
    · rw [other hap hno] at h
      simp at h
  · unfold waitForApproval PollImmediateUntilWithContext at herr ⊢
    rcases hl : pollLoop env.ctxErr waitForApproval.condition
      (env.firstGet :: env.laterGets) "" with ⟨_ | e, u⟩
    · exact pollLoop_success_nonempty env.ctxErr _ u hl
    · rw [hl] at herr
      simp at herr
  · by_contra hno
    have h0 := h "" []
    by_cases hrj : ∃ st, statusOf obj = some st ∧ stringField st "phase" = some "Rejected"
    · obtain ⟨st, hs, hp⟩ := hrj
      rw [pollLoop_step_rejected "" obj [] d st hs hp] at h0
      simp at h0
    · rw [pollLoop_step_other "" obj [] d hno hrj, pollLoop] at h0
      simp at h0
  · by_contra hno
    by_cases hap : ∃ st u, statusOf obj = some st ∧ stringField st "phase" = some "Approved" ∧
        stringField st "deviceUUID" = some u ∧ u ≠ ""
    · obtain ⟨st, u, hs, hp, hu, hne⟩ := hap
      obtain ⟨e, he⟩ := h "" []
      rw [pollLoop_step_approved "" obj [] d st u hs hp hu hne] at he
      simp at he
    · obtain ⟨e, he⟩ := h "" [.ok (objectWith "Approved" "" "U")]
      rw [pollLoop_step_other "" obj _ d hap hno,
        pollLoop_step_approved "" (objectWith "Approved" "" "U") [] d _ "U" rfl rfl rfl
          (by decide)] at he
      simp at he
  · rw [waitForApproval_skips_not_ready env pre post _ hseq hpre,
      pollLoop_step_approved env.ctxErr obj post "" st u hs hp hu hne]
  · rw [waitForApproval_skips_not_ready env pre post _ hseq hpre,
      pollLoop_step_rejected env.ctxErr obj post "" st hs hp]
  · rw [waitForApproval_skips_not_ready env pre post _ hseq hpre,
      pollLoop_step_other env.ctxErr obj post "" h1 h2]

/-- C8 at an `Approved` object with a UUID, a `Rejected` object, an `Approved`
object whose UUID is empty, and two polls that reach one of the first two after an
object without status. -/
theorem C8_poll_step_outcome_witness :
    waitForApproval.condition (.ok (objectWith "Approved" "Device registered successfully." "U7"))
      "" = ((true, none), "U7") ∧
    waitForApproval.condition (.ok (objectWith "Rejected" "closed" "")) "" =
      ((false, some "registrazione rifiutata: closed"), "") ∧
    waitForApproval.condition (.ok (objectWith "Approved" "" "")) "" = ((false, none), "") ∧
    waitForApproval
      (pollEnv none [.ok (objectWith "Approved" "Device registered successfully." "U7"),
        .ok (objectWith "Rejected" "closed" "")]) = ("U7", none) ∧
    waitForApproval
      (pollEnv none [.ok (objectWith "Rejected" "closed" ""),
        .ok (objectWith "Approved" "Device registered successfully." "U7")]) =
      ("", some "registrazione rifiutata: closed") :=
  ⟨(C8_poll_step_outcome (objectWith "Approved" "Device registered successfully." "U7") "").2.1
      _ "U7" rfl rfl rfl (by decide),
    (C8_poll_step_outcome (objectWith "Rejected" "closed" "") "").2.2.2.1 _ rfl rfl,
    (C8_poll_step_outcome (objectWith "Approved" "" "") "").2.2.2.2.1
      (by
        rintro ⟨st, u, hs, _, hu, hne⟩
        have hst : st = [("phase", Value.str "Approved"), ("message", Value.str ""),
            ("deviceUUID", Value.str "")] := (Option.some.inj hs).symm
        subst hst
        exact hne (Option.some.inj hu).symm)
      (by
        rintro ⟨st, hs, hp⟩
        have hst : st = [("phase", Value.str "Approved"), ("message", Value.str ""),
            ("deviceUUID", Value.str "")] := (Option.some.inj hs).symm
        subst hst
        exact absurd (Option.some.inj hp) (by decide)),
    ((C8_poll_step_outcome (objectWith "Approved" "Device registered successfully." "U7")
        "").2.2.2.2.2.2.2.2.2.2.2
      (pollEnv none [.ok (objectWith "Approved" "Device registered successfully." "U7"),
        .ok (objectWith "Rejected" "closed" "")])
      [.ok []] [.ok (objectWith "Rejected" "closed" "")] rfl
      (fun b hb => by
        rw [List.mem_singleton] at hb
        subst hb
        rfl)).1 _ "U7" rfl rfl rfl (by decide),
    ((C8_poll_step_outcome (objectWith "Rejected" "closed" "") "").2.2.2.2.2.2.2.2.2.2.2
      (pollEnv none [.ok (objectWith "Rejected" "closed" ""),
        .ok (objectWith "Approved" "Device registered successfully." "U7")])
      [.ok []] [.ok (objectWith "Approved" "Device registered successfully." "U7")] rfl
      (fun b hb => by
        rw [List.mem_singleton] at hb
        subst hb
        rfl)).2.1 _ rfl rfl⟩

/-- C9, counterexample: the first fetch fails and the second would have shown the
object `Approved`; `waitForApproval` ends at the failed fetch and returns its error
to the caller, and `ServeHTTP` answers 403 carrying that error. -/
theorem C9_fetch_error_ends_polling :
    waitForApproval ⟨"0a1b2c3d-0000", none, .error "connection refused",
      [.ok (objectWith "Approved" "Device registered successfully." "U1")],
      "timed out waiting for the condition"⟩ = ("", some "connection refused") ∧
    (ServeHTTP ⟨"default"⟩ ⟨"0a1b2c3d-0000", none, .error "connection refused",
      [.ok (objectWith "Approved" "Device registered successfully." "U1")],
      "timed out waiting for the condition"⟩ ⟨"POST", some ⟨"PEM-KEY-A"⟩⟩).response =
      ⟨403, "text/plain; charset=utf-8",
        .text "Registrazione fallita: connection refused\n"⟩ := by
  constructor
  · rfl
  · rw [ServeHTTP_polled _ _ _ ⟨"PEM-KEY-A"⟩ rfl rfl (by decide) rfl]
    rfl

/-- C9, amended: a poll step whose fetch fails reports the fetch error; and whenever
the attempts before a failed fetch were not yet ready, `waitForApproval` ends at that
fetch and returns its error with an empty UUID, whatever the store would have
answered afterwards. -/
theorem C9_fetch_error_is_returned (env : GatewayEnv) (pre post : List (Except String Object))
    (e : String) (hseq : env.firstGet :: env.laterGets = pre ++ .error e :: post)
    (hpre : ∀ b ∈ pre, (waitForApproval.condition b "").1 = (false, none)) :
    (∀ d, waitForApproval.condition (.error e) d = ((false, some e), d)) ∧
    waitForApproval env = ("", some e) := by
  refine ⟨fun d => rfl, ?_⟩
  rw [waitForApproval_skips_not_ready env pre post _ hseq hpre]
  rfl

/-- C9, amended, at a poll whose second fetch fails after a `Pending` object. -/
theorem C9_fetch_error_is_returned_witness :
    waitForApproval ⟨"0a1b2c3d-0000", none, .ok (objectWith "Pending" "" ""),
      [.error "connection refused",
        .ok (objectWith "Approved" "Device registered successfully." "U1")],
      "timed out waiting for the condition"⟩ = ("", some "connection refused") :=
  (C9_fetch_error_is_returned ⟨"0a1b2c3d-0000", none, .ok (objectWith "Pending" "" ""),
      [.error "connection refused",
        .ok (objectWith "Approved" "Device registered successfully." "U1")],
      "timed out waiting for the condition"⟩
    [.ok (objectWith "Pending" "" "")]
    [.ok (objectWith "Approved" "Device registered successfully." "U1")]
    "connection refused" rfl
    (fun b hb => by
      rw [List.mem_singleton] at hb
      subst hb
      rfl)).2

/-- C10: `ServeHTTP` answers, in this order of precedence: 405 when the method is not
POST; 400 when the body does not decode or `publicKey` is missing or empty, and in
none of these three cases calls `Create`; 500 when `Create` fails; 403 with the
rejection text and `status.message` in the body when the poll reaches a `Rejected`
object; and 200 with a JSON body carrying `status.deviceUUID` when the poll reaches
an `Approved` object with a non-empty UUID. -/
theorem C10_http_status_mapping (h : gatewayHandler) (env : GatewayEnv) (r : Request) :
    (r.Method ≠ MethodPost →
      (ServeHTTP h env r).response.StatusCode = 405 ∧ (ServeHTTP h env r).creates = []) ∧
    (r.Method = MethodPost → r.Body = none →
      (ServeHTTP h env r).response.StatusCode = 400 ∧ (ServeHTTP h env r).creates = []) ∧
    (r.Method = MethodPost → r.Body = some ⟨""⟩ →
      (ServeHTTP h env r).response.StatusCode = 400 ∧ (ServeHTTP h env r).creates = []) ∧
    (∀ req e, r.Method = MethodPost → r.Body = some req → req.PublicKey ≠ "" →
      env.createErr = some e → (ServeHTTP h env r).response.StatusCode = 500) ∧
    (∀ req pre post obj st, r.Method = MethodPost → r.Body = some req → req.PublicKey ≠ "" →
      env.createErr = none →
      env.firstGet :: env.laterGets = pre ++ .ok obj :: post →
      (∀ b ∈ pre, (waitForApproval.condition b "").1 = (false, none)) →
      statusOf obj = some st → stringField st "phase" = some "Rejected" →
      (ServeHTTP h env r).response.StatusCode = 403 ∧
      (ServeHTTP h env r).response.body = .text ("Registrazione fallita: " ++
        ("registrazione rifiutata: " ++ (stringField st "message").getD "") ++ "\n")) ∧
    (∀ req pre post obj st u, r.Method = MethodPost → r.Body = some req →
      req.PublicKey ≠ "" → env.createErr = none →
      env.firstGet :: env.laterGets = pre ++ .ok obj :: post →
      (∀ b ∈ pre, (waitForApproval.condition b "").1 = (false, none)) →
      statusOf obj = some st → stringField st "phase" = some "Approved" →
      stringField st "deviceUUID" = some u → u ≠ "" →
      (ServeHTTP h env r).response.StatusCode = 200 ∧
      (ServeHTTP h env r).response.body =
        .json ⟨u, "Dispositivo registrato con successo."⟩) := by
  refine ⟨fun hm => ?_, fun hm hb => ?_, fun hm hb => ?_, fun req e hm hb hk hc => ?_,
    fun req pre post obj st hm hb hk hc hseq hpre hs hp => ?_,
    fun req pre post obj st u hm hb hk hc hseq hpre hs hp hu hne => ?_⟩
  · unfold ServeHTTP
    rw [if_pos hm]
    exact ⟨rfl, rfl⟩
  · unfold ServeHTTP
    rw [if_neg (not_not.mpr hm), hb]
    exact ⟨rfl, rfl⟩
  · unfold ServeHTTP
    rw [if_neg (not_not.mpr hm), hb]
    exact ⟨rfl, rfl⟩
  · unfold ServeHTTP createDeviceRegistrationResource
    simp only [hm, hb, hk, hc, ne_eq, not_true_eq_false, if_false]
    rfl
  · have hcond := condition_rejected obj "" st hs hp
    have hw : waitForApproval env =
        ("", some ("registrazione rifiutata: " ++ (stringField st "message").getD "")) := by
      rw [waitForApproval_skips_not_ready env pre post _ hseq hpre, pollLoop, hcond]
    rw [ServeHTTP_polled h env r req hm hb hk hc, hw]
    exact ⟨rfl, rfl⟩
  · have hcond := condition_approved obj "" st u hs hp hu hne
    have hw : waitForApproval env = (u, none) := by
      rw [waitForApproval_skips_not_ready env pre post _ hseq hpre, pollLoop, hcond]
    rw [ServeHTTP_polled h env r req hm hb hk hc, hw]
    exact ⟨rfl, rfl⟩

/-- C10 at a GET request, an empty key, a failing `Create`, a rejected and an approved
registration. -/
theorem C10_http_status_mapping_witness :
    (ServeHTTP ⟨"default"⟩ (pollEnv none []) ⟨"GET", some ⟨"PEM-KEY-A"⟩⟩).response.StatusCode
      = 405 ∧
    ((ServeHTTP ⟨"default"⟩ (pollEnv none []) ⟨"POST", some ⟨""⟩⟩).response.StatusCode = 400 ∧
      (ServeHTTP ⟨"default"⟩ (pollEnv none []) ⟨"POST", some ⟨""⟩⟩).creates = []) ∧
    (ServeHTTP ⟨"default"⟩ (pollEnv (some "connection refused") [])
      ⟨"POST", some ⟨"PEM-KEY-A"⟩⟩).response.StatusCode = 500 ∧
    (ServeHTTP ⟨"default"⟩ (pollEnv none [.ok (objectWith "Rejected" "closed" "")])
      ⟨"POST", some ⟨"PEM-KEY-B"⟩⟩).response.StatusCode = 403 ∧
    (ServeHTTP ⟨"default"⟩
      (pollEnv none [.ok (objectWith "Approved" "Device registered successfully." "U1")])
      ⟨"POST", some ⟨"PEM-KEY-A"⟩⟩).response.body =
      .json ⟨"U1", "Dispositivo registrato con successo."⟩ :=
  ⟨((C10_http_status_mapping ⟨"default"⟩ (pollEnv none [])
      ⟨"GET", some ⟨"PEM-KEY-A"⟩⟩).1 (by decide)).1,
    (C10_http_status_mapping ⟨"default"⟩ (pollEnv none []) ⟨"POST", some ⟨""⟩⟩).2.2.1 rfl rfl,
    (C10_http_status_mapping ⟨"default"⟩ (pollEnv (some "connection refused") [])
      ⟨"POST", some ⟨"PEM-KEY-A"⟩⟩).2.2.2.1 ⟨"PEM-KEY-A"⟩ "connection refused" rfl rfl
      (by decide) rfl,
    ((C10_http_status_mapping ⟨"default"⟩
      (pollEnv none [.ok (objectWith "Rejected" "closed" "")])
      ⟨"POST", some ⟨"PEM-KEY-B"⟩⟩).2.2.2.2.1 ⟨"PEM-KEY-B"⟩ [.ok []] []
      (objectWith "Rejected" "closed" "") _ rfl rfl (by decide) rfl rfl
      (fun b hb => by
        rw [List.mem_singleton] at hb
        subst hb
        rfl)
      rfl rfl).1,
    ((C10_http_status_mapping ⟨"default"⟩
      (pollEnv none [.ok (objectWith "Approved" "Device registered successfully." "U1")])
      ⟨"POST", some ⟨"PEM-KEY-A"⟩⟩).2.2.2.2.2 ⟨"PEM-KEY-A"⟩ [.ok []] []
      (objectWith "Approved" "Device registered successfully." "U1") _ "U1" rfl rfl
      (by decide) rfl rfl
      (fun b hb => by
        rw [List.mem_singleton] at hb
        subst hb
        rfl)
      rfl rfl rfl (by decide)).2⟩

/-- C11, counterexample: an enrollment whose poll attempts all find the object
still `Pending` until the context is done is answered 403, the same status as an
enrollment whose object is `Rejected`. -/
theorem C11_timeout_answered_like_rejection :
    (ServeHTTP ⟨"default"⟩ (pollEnv none [.ok (objectWith "Pending" "" "")])
      ⟨"POST", some ⟨"PEM-KEY-A"⟩⟩).response =
      ⟨403, "text/plain; charset=utf-8",
        .text "Registrazione fallita: timed out waiting for the condition\n"⟩ ∧
    (ServeHTTP ⟨"default"⟩ (pollEnv none [.ok (objectWith "Rejected" "closed" "")])
      ⟨"POST", some ⟨"PEM-KEY-A"⟩⟩).response =
      ⟨403, "text/plain; charset=utf-8",
        .text "Registrazione fallita: registrazione rifiutata: closed\n"⟩ ∧
    (ServeHTTP ⟨"default"⟩ (pollEnv none [.ok (objectWith "Pending" "" "")])
      ⟨"POST", some ⟨"PEM-KEY-A"⟩⟩).response.StatusCode =
    (ServeHTTP ⟨"default"⟩ (pollEnv none [.ok (objectWith "Rejected" "closed" "")])
      ⟨"POST", some ⟨"PEM-KEY-A"⟩⟩).response.StatusCode := by
  rw [ServeHTTP_polled _ (pollEnv none [.ok (objectWith "Pending" "" "")]) _
      ⟨"PEM-KEY-A"⟩ rfl rfl (by decide) rfl,
    ServeHTTP_polled _ (pollEnv none [.ok (objectWith "Rejected" "closed" "")]) _
      ⟨"PEM-KEY-A"⟩ rfl rfl (by decide) rfl]
  exact ⟨rfl, rfl, rfl⟩

/-- C11, amended: for every valid POST request whose `Create` is accepted and whose
poll attempts are all not yet ready until the poller's context is done (the deadline
of two minutes elapsed without a terminal phase), `waitForApproval` returns the
context's error and `ServeHTTP` answers 403, the status also used for `Rejected`;
the response body carries the context's error text, and differs from the body of a
rejection with message `msg` exactly when that error text is not the rejection text. -/
theorem C11_timeout_is_403_with_own_body (h : gatewayHandler) (env : GatewayEnv)
    (r : Request) (req : EnrollmentRequest) (hm : r.Method = MethodPost)
    (hb : r.Body = some req) (hk : req.PublicKey ≠ "") (hc : env.createErr = none)
    (hnot : ∀ b ∈ env.firstGet :: env.laterGets,
      (waitForApproval.condition b "").1 = (false, none)) :
    waitForApproval env = ("", some env.ctxErr) ∧
    (ServeHTTP h env r).response.StatusCode = StatusForbidden ∧
    (ServeHTTP h env r).response.StatusCode = 403 ∧
    (ServeHTTP h env r).response.body = .text ("Registrazione fallita: " ++ env.ctxErr ++ "\n") ∧
    (∀ msg : String,
      (ServeHTTP h env r).response.body =
          (httpError ("Registrazione fallita: " ++ ("registrazione rifiutata: " ++ msg))
            StatusForbidden).body ↔
        env.ctxErr = "registrazione rifiutata: " ++ msg) := by
  have hw := waitForApproval_never_ready env hnot
  have hr : (ServeHTTP h env r).response =
      httpError ("Registrazione fallita: " ++ env.ctxErr) StatusForbidden := by
    rw [ServeHTTP_polled h env r req hm hb hk hc, hw]
  refine ⟨hw, by rw [hr]; rfl, by rw [hr]; rfl, by rw [hr]; rfl, fun msg => ?_⟩
  rw [hr]
  exact ⟨fun hbody => httpError_body_inj _ _ _ _ hbody, fun he => by rw [he]⟩

/-- C11, amended, at an object that stays `Pending` until the context is done. -/
theorem C11_timeout_is_403_with_own_body_witness :
    (ServeHTTP ⟨"default"⟩ (pollEnv none [.ok (objectWith "Pending" "" "")])
      ⟨"POST", some ⟨"PEM-KEY-A"⟩⟩).response.StatusCode = 403 ∧
    (ServeHTTP ⟨"default"⟩ (pollEnv none [.ok (objectWith "Pending" "" "")])
      ⟨"POST", some ⟨"PEM-KEY-A"⟩⟩).response.body =
      .text ("Registrazione fallita: " ++ "timed out waiting for the condition" ++ "\n") :=
  have h := C11_timeout_is_403_with_own_body ⟨"default"⟩
    (pollEnv none [.ok (objectWith "Pending" "" "")]) ⟨"POST", some ⟨"PEM-KEY-A"⟩⟩
    ⟨"PEM-KEY-A"⟩ rfl rfl (by decide) rfl
    (fun b hb => by
      rcases List.mem_cons.mp hb with hb | hb
      · subst hb
        rfl
      · rw [List.mem_singleton.mp hb]
        rfl)
  ⟨h.2.2.1, h.2.2.2.1⟩

end DeviceOperator
